import Mathlib

/-!
# Verification of the ESP32 environment monitor core (src/sketch.ino)

Shallow embedding of the sketch's logic core:

* `EnvData` mirrors `struct EnvData`; the float fields `temperature` and
  `humidity` are modelled as `Option ℚ`, where `none` stands for the NaN
  sentinel returned by a failed DHT read (`isnan` tests become `Option`
  matches) and `some q` for a finite float value.
* Timestamps are `ℕ` values reduced mod 2^32; the `unsigned long`
  subtractions `now - last` in the sketch become `elapsed32`.
* The mutable globals (`currentMode`, `alarmOn`, the buzzer line,
  `lastReadMillis`, `lastDisplayMillis`, `latestData`, `lastButtonChange`,
  `lastButtonState`) are collected in `SysState`; one iteration of `loop()`
  is `loopStep`, which also records the observable sample / render calls of
  that pass in a `PassOutput`.
* The two `DisplayManager` renderers are modelled as the list of text
  tokens they emit (one token per `print`/`println` call), with Arduino's
  `Print::printFloat` fixed-point formatting reproduced by `printFloat`.
-/

namespace EnvMonitor

/-! ## Configuration constants (sketch lines 19-22, 145-155) -/

def TEMP_HIGH_THRESHOLD : ℚ := 30
def HUMID_HIGH_THRESHOLD : ℚ := 70
def LIGHT_LOW_THRESHOLD : ℤ := 1000

def READ_INTERVAL_MS : ℕ := 2000
def DISPLAY_INTERVAL_MS : ℕ := 500
def BUTTON_DEBOUNCE_MS : ℕ := 200

/-! ## Data model -/

/-- `struct EnvData` (sketch lines 30-34).  `none` models a NaN float. -/
structure EnvData where
  temperature : Option ℚ
  humidity : Option ℚ
  lightRaw : ℤ
deriving Repr, DecidableEq

/-- `enum class DisplayMode` (sketch lines 37-40). -/
inductive DisplayMode where
  | SUMMARY
  | DETAIL
deriving Repr, DecidableEq

/-! ## 32-bit modular elapsed time

`millis()` returns `unsigned long` (32 bits on the ESP32); every elapsed-time
gate in the sketch computes `now - last` in that type, i.e. modulo 2^32. -/

def U32 : ℕ := 4294967296

/-- The value of the C expression `now - last` at type `unsigned long`,
for timestamps `now`, `last` (reduced mod 2^32). -/
def elapsed32 (now last : ℕ) : ℕ :=
  (now % U32 + U32 - last % U32) % U32

/-! ## Threshold evaluator (sketch lines 158-165) -/

/-- The alarm boolean computed by `updateAlarm` (sketch lines 159-163):
`tempHigh || humHigh || lightLow` where a NaN channel makes its own
condition false. -/
def alarmCondition (data : EnvData) : Bool :=
  let tempHigh := match data.temperature with
    | none => false
    | some t => decide (t ≥ TEMP_HIGH_THRESHOLD)
  let humHigh := match data.humidity with
    | none => false
    | some h => decide (h ≥ HUMID_HIGH_THRESHOLD)
  let lightLow := decide (data.lightRaw ≤ LIGHT_LOW_THRESHOLD)
  tempHigh || humHigh || lightLow

/-! ## Input debouncer (sketch lines 152-155, 167-184) -/

/-- The two debounce globals `lastButtonChange` / `lastButtonState`
(sketch lines 153, 155).  `true` models `HIGH`. -/
structure DebounceState where
  lastButtonChange : ℕ
  lastButtonState : Bool
deriving Repr, DecidableEq

/-- One invocation of the debounce core of `handleButton` (sketch lines
168-173) given the raw level read from the pin and `millis()`.  Returns the
updated debounce globals together with the toggle event: the mode flip of
lines 176-182 fires exactly when the change is accepted and the new level
is `HIGH`. -/
def pollDebounce (st : DebounceState) (level : Bool) (now : ℕ) :
    DebounceState × Bool :=
  if level ≠ st.lastButtonState ∧ elapsed32 now st.lastButtonChange > BUTTON_DEBOUNCE_MS then
    (⟨now, level⟩, level)
  else
    (st, false)

/-- Folding `pollDebounce` over a list of (raw level, time) polls, counting
the toggle events emitted. -/
def runDebounce (st : DebounceState) : List (Bool × ℕ) → DebounceState × ℕ
  | [] => (st, 0)
  | (lv, t) :: rest =>
    let p := pollDebounce st lv t
    let r := runDebounce p.1 rest
    (r.1, (if p.2 then 1 else 0) + r.2)

/-! ## Scheduler loop state (sketch lines 142-155, 205-234) -/

/-- All mutable globals of the sketch that the loop reads or writes, plus
the buzzer output line level driven by `digitalWrite` in `updateAlarm`. -/
structure SysState where
  currentMode : DisplayMode
  alarmOn : Bool
  buzzer : Bool
  lastReadMillis : ℕ
  lastDisplayMillis : ℕ
  latestData : EnvData
  lastButtonChange : ℕ
  lastButtonState : Bool
deriving Repr, DecidableEq

/-- `void updateAlarm(const EnvData&)` (sketch lines 158-165): store the
alarm boolean and drive the buzzer line to the same level. -/
def updateAlarm (s : SysState) (data : EnvData) : SysState :=
  let a := alarmCondition data
  { s with alarmOn := a, buzzer := a }

/-- `DisplayMode` flip performed on a rising-edge toggle (sketch lines
177-181). -/
def toggleMode : DisplayMode → DisplayMode
  | DisplayMode.SUMMARY => DisplayMode.DETAIL
  | DisplayMode.DETAIL => DisplayMode.SUMMARY

/-- `void handleButton()` (sketch lines 167-184) acting on the full global
state, given the raw pin level and `millis()`. -/
def handleButton (s : SysState) (level : Bool) (now : ℕ) : SysState :=
  let p := pollDebounce ⟨s.lastButtonChange, s.lastButtonState⟩ level now
  { s with
    lastButtonChange := p.1.lastButtonChange
    lastButtonState := p.1.lastButtonState
    currentMode := if p.2 then toggleMode s.currentMode else s.currentMode }

/-- The environment of one `loop()` pass: the value `millis()` returns,
the `EnvData` that `sensor.read()` would produce if called this pass, and
the raw button level `digitalRead` returns. -/
structure PassInput where
  now : ℕ
  reading : EnvData
  buttonLevel : Bool
deriving Repr, DecidableEq

/-- A render call issued to the display manager in one pass: the reading
set, alarm flag and mode passed to `showSummary`/`showDetail`. -/
structure RenderCall where
  data : EnvData
  alarmOn : Bool
  mode : DisplayMode
deriving Repr, DecidableEq

/-- The observable activity of one `loop()` pass: the sample taken (if the
sampling gate fired) and the render issued (if the render gate fired). -/
structure PassOutput where
  sampled : Option EnvData
  rendered : Option RenderCall
deriving Repr, DecidableEq

/-- One iteration of `void loop()` (sketch lines 205-234): the sampling
block (lines 209-220), then the display block (lines 223-230), then
`handleButton()` (line 233). -/
def loopStep (s : SysState) (inp : PassInput) : SysState × PassOutput :=
  let sampleStep :=
    if elapsed32 inp.now s.lastReadMillis ≥ READ_INTERVAL_MS then
      (updateAlarm
        { s with lastReadMillis := inp.now, latestData := inp.reading }
        inp.reading,
       some inp.reading)
    else
      (s, (none : Option EnvData))
  let s1 := sampleStep.1
  let renderStep :=
    if elapsed32 inp.now s1.lastDisplayMillis ≥ DISPLAY_INTERVAL_MS then
      ({ s1 with lastDisplayMillis := inp.now },
       some (RenderCall.mk s1.latestData s1.alarmOn s1.currentMode))
    else
      (s1, (none : Option RenderCall))
  let s2 := renderStep.1
  (handleButton s2 inp.buttonLevel inp.now,
   PassOutput.mk sampleStep.2 renderStep.2)

/-- `EnvData latestData;` has static storage duration, hence is
zero-initialised: temperature `0.0f`, humidity `0.0f`, lightRaw `0`. -/
def latestDataInit : EnvData := ⟨some 0, some 0, 0⟩

/-- Global state right after `setup()` (sketch lines 142-155, 187-203):
mode Summary, alarm flag false, buzzer driven LOW, all timestamps 0,
zero-initialised `latestData`, button state LOW. -/
def initState : SysState :=
  { currentMode := DisplayMode.SUMMARY
    alarmOn := false
    buzzer := false
    lastReadMillis := 0
    lastDisplayMillis := 0
    latestData := latestDataInit
    lastButtonChange := 0
    lastButtonState := false }

/-- Running the loop over a list of pass environments, collecting the
per-pass observable outputs. -/
def runLoop (s : SysState) : List PassInput → SysState × List PassOutput
  | [] => (s, [])
  | inp :: rest =>
    let p := loopStep s inp
    let r := runLoop p.1 rest
    (r.1, p.2 :: r.2)

/-! ## View renderer (sketch lines 82-132)

Each `print` / `println` call on the display is modelled as one emitted
text token (`println` appends a newline to its token).  Fixed-point float
formatting follows Arduino's `Print::printFloat`: add `0.5 * 10^-digits`,
print the integer part, then produce each fractional digit by repeated
multiplication by 10 and truncation. -/

/-- The fractional digits emitted by `Print::printFloat`'s final loop,
starting from remainder `rem` (`0 ≤ rem < 1`). -/
def fracDigits : ℕ → ℚ → String
  | 0, _ => ""
  | n + 1, rem =>
    let rem10 := rem * 10
    let d : ℤ := ⌊rem10⌋
    toString d ++ fracDigits n (rem10 - d)

/-- `Print::printFloat` on a non-negative finite value. -/
def printFloatPos (q : ℚ) (digits : ℕ) : String :=
  let r := q + 1 / (2 * 10 ^ digits)
  let ip : ℤ := ⌊r⌋
  toString ip ++ (if digits = 0 then "" else "." ++ fracDigits digits (r - ip))

/-- `Print::printFloat` on a finite value: prints a leading minus sign and
negates first when negative. -/
def printFloat (q : ℚ) (digits : ℕ) : String :=
  if q < 0 then "-" ++ printFloatPos (-q) digits else printFloatPos q digits

/-- `DisplayManager::showSummary` (sketch lines 82-111) as the list of text
tokens drawn, in order. -/
def showSummary (data : EnvData) (alarmOn : Bool) : List String :=
  ["ENV MONITOR - SUMMARY\n", "\n", "Temp: "] ++
  (match data.temperature with
   | none => ["ERR\n"]
   | some t => [printFloat t 1, " C\n"]) ++
  ["Hum : "] ++
  (match data.humidity with
   | none => ["ERR\n"]
   | some h => [printFloat h 1, " %\n"]) ++
  ["Light: ", toString data.lightRaw, " /4095\n", "\n", "Alarm: ",
   if alarmOn then "ON\n" else "OFF\n"]

/-- `DisplayManager::showDetail` (sketch lines 113-132) as the list of text
tokens drawn, in order.  `display.println(isnan(x) ? NAN : x, 2)` prints
the token `"nan"` when the value is NaN (Arduino prints NaN as `nan`),
otherwise the value to 2 decimals. -/
def showDetail (data : EnvData) : List String :=
  ["ENV MONITOR - DETAIL\n", "\n", "Raw readings:\n", "T: ",
   (match data.temperature with
    | none => "nan\n"
    | some t => printFloat t 2 ++ "\n"),
   "H: ",
   (match data.humidity with
    | none => "nan\n"
    | some h => printFloat h 2 ++ "\n"),
   "L: ", toString data.lightRaw ++ "\n",
   "\n", "Press button\n", "to switch mode.\n"]

/-! ## Concrete scenario inputs -/

/-- A run of consecutive passes, one per time-unit starting at clock `a`,
with a fixed sensor reading and the button held LOW. -/
def passesFrom (r : EnvData) : ℕ → ℕ → List PassInput
  | _, 0 => []
  | a, n + 1 => ⟨a, r, false⟩ :: passesFrom r (a + 1) n

/-- A fixed in-range reading (no threshold exceeded) used for the
end-to-end schedule scenario. -/
def rC6 : EnvData := ⟨some 25, some 50, 2000⟩

/-- The end-to-end scenario of the spec: 2101 passes at clocks 0..2100,
one per time-unit, with no button activity. -/
def inputsC6 : List PassInput := passesFrom rC6 0 2101

/-! ## Shared helper lemmas -/

/-- For timestamps below 2^32 with no wraparound between them, `elapsed32`
is plain subtraction. -/
lemma elapsed32_of_le (now last : ℕ) (h1 : last ≤ now) (h2 : now < U32) :
    elapsed32 now last = now - last := by
  unfold elapsed32 U32 at *
  omega

/-- A debounce poll whose elapsed time is within the window leaves the
state unchanged and emits no event, whatever the raw level is. -/
lemma pollDebounce_within (st : DebounceState) (lv : Bool) (t : ℕ)
    (h : elapsed32 t st.lastButtonChange ≤ BUTTON_DEBOUNCE_MS) :
    pollDebounce st lv t = (st, false) := by
  unfold pollDebounce
  rw [if_neg]
  rintro ⟨-, hgt⟩
  omega

/-- A run of debounce polls all within the window of the current
transition timestamp changes nothing and emits no toggle. -/
lemma runDebounce_within (polls : List (Bool × ℕ)) :
    ∀ st : DebounceState,
      (∀ p ∈ polls, elapsed32 p.2 st.lastButtonChange ≤ BUTTON_DEBOUNCE_MS) →
      runDebounce st polls = (st, 0) := by
  induction polls with
  | nil => intro st _; rfl
  | cons p rest ih =>
    intro st h
    have hp := h p (List.mem_cons_self p rest)
    have hrest : ∀ q ∈ rest, elapsed32 q.2 st.lastButtonChange ≤ BUTTON_DEBOUNCE_MS :=
      fun q hq => h q (List.mem_cons_of_mem p hq)
    simp only [runDebounce, pollDebounce_within st p.1 p.2 hp, ih st hrest]
    rfl

/-- A pass whose sampling and render gates are both closed and whose raw
button level equals the stable level changes nothing and emits nothing. -/
lemma loopStep_quiet (s : SysState) (t : ℕ) (r : EnvData)
    (h1 : elapsed32 t s.lastReadMillis < READ_INTERVAL_MS)
    (h2 : elapsed32 t s.lastDisplayMillis < DISPLAY_INTERVAL_MS)
    (hbs : s.lastButtonState = false) :
    loopStep s ⟨t, r, false⟩ = (s, ⟨none, none⟩) := by
  rcases s with ⟨cm, ao, bz, lr, ld, dat, lbc, lbs⟩
  simp only at h1 h2 hbs
  subst hbs
  unfold loopStep handleButton pollDebounce
  simp [not_le.mpr h1, not_le.mpr h2]

/-- A pass with only the render gate open (button idle) renders the
current reading set, alarm flag and mode, and only moves the render
timestamp. -/
lemma loopStep_render (s : SysState) (t : ℕ) (r : EnvData)
    (h1 : elapsed32 t s.lastReadMillis < READ_INTERVAL_MS)
    (h2 : DISPLAY_INTERVAL_MS ≤ elapsed32 t s.lastDisplayMillis)
    (hbs : s.lastButtonState = false) :
    loopStep s ⟨t, r, false⟩ =
      ({ s with lastDisplayMillis := t },
       ⟨none, some ⟨s.latestData, s.alarmOn, s.currentMode⟩⟩) := by
  rcases s with ⟨cm, ao, bz, lr, ld, dat, lbc, lbs⟩
  simp only at h1 h2 hbs
  subst hbs
  unfold loopStep handleButton pollDebounce
  simp [not_le.mpr h1, h2]

/-- A pass with both gates open (button idle) samples, evaluates the
alarm, drives the buzzer, and then renders the post-sample reading set
with the freshly computed alarm flag. -/
lemma loopStep_sample_render (s : SysState) (t : ℕ) (r : EnvData)
    (h1 : READ_INTERVAL_MS ≤ elapsed32 t s.lastReadMillis)
    (h2 : DISPLAY_INTERVAL_MS ≤ elapsed32 t s.lastDisplayMillis)
    (hbs : s.lastButtonState = false) :
    loopStep s ⟨t, r, false⟩ =
      ({ s with lastReadMillis := t, lastDisplayMillis := t, latestData := r,
                alarmOn := alarmCondition r, buzzer := alarmCondition r },
       ⟨some r, some ⟨r, alarmCondition r, s.currentMode⟩⟩) := by
  rcases s with ⟨cm, ao, bz, lr, ld, dat, lbc, lbs⟩
  simp only at h1 h2 hbs
  subst hbs
  unfold loopStep handleButton pollDebounce updateAlarm
  simp [h1, h2]

/-- A pass whose sampling gate is closed keeps the reading set, alarm
flag, buzzer level and sample timestamp, takes no sample, and any render
it issues shows the current reading set and alarm flag. -/
lemma loopStep_noSample (s : SysState) (inp : PassInput)
    (h1 : elapsed32 inp.now s.lastReadMillis < READ_INTERVAL_MS) :
    (loopStep s inp).2.sampled = none ∧
    (loopStep s inp).1.lastReadMillis = s.lastReadMillis ∧
    (loopStep s inp).1.latestData = s.latestData ∧
    (loopStep s inp).1.alarmOn = s.alarmOn ∧
    (loopStep s inp).1.buzzer = s.buzzer ∧
    (∀ rc, (loopStep s inp).2.rendered = some rc →
      rc.data = s.latestData ∧ rc.alarmOn = s.alarmOn) := by
  unfold loopStep handleButton pollDebounce
  rw [if_neg (not_le.mpr h1)]
  simp only [ge_iff_le]
  split <;> simp_all

/-- Inversion of an emitted toggle event: it requires a rising raw level
over a stable low, an elapsed time beyond the window, and it moves the
debounce state to the new level and timestamp. -/
lemma pollDebounce_event (st : DebounceState) (lv : Bool) (now : ℕ)
    (hev : (pollDebounce st lv now).2 = true) :
    lv = true ∧ st.lastButtonState = false ∧
    BUTTON_DEBOUNCE_MS < elapsed32 now st.lastButtonChange ∧
    (pollDebounce st lv now).1 = ⟨now, lv⟩ := by
  by_cases hc : lv ≠ st.lastButtonState ∧
      BUTTON_DEBOUNCE_MS < elapsed32 now st.lastButtonChange
  · have hp : pollDebounce st lv now = (⟨now, lv⟩, lv) := by
      unfold pollDebounce
      rw [if_pos hc]
    rw [hp] at hev
    have hlv : lv = true := hev
    subst hlv
    refine ⟨rfl, ?_, hc.2, by rw [hp]⟩
    cases hst : st.lastButtonState with
    | false => rfl
    | true => exact absurd (by rw [hst]) hc.1
  · have hp : pollDebounce st lv now = (st, false) := by
      unfold pollDebounce
      rw [if_neg hc]
    rw [hp] at hev
    exact absurd hev (by simp)

/-- The mode and debounce fields after one pass are exactly those produced
by the debounce poll of that pass (the sampling and render blocks never
touch them). -/
lemma loopStep_button (s : SysState) (inp : PassInput) :
    (loopStep s inp).1.currentMode =
      (if (pollDebounce ⟨s.lastButtonChange, s.lastButtonState⟩
            inp.buttonLevel inp.now).2 = true
       then toggleMode s.currentMode else s.currentMode) ∧
    (loopStep s inp).1.lastButtonChange =
      (pollDebounce ⟨s.lastButtonChange, s.lastButtonState⟩
        inp.buttonLevel inp.now).1.lastButtonChange ∧
    (loopStep s inp).1.lastButtonState =
      (pollDebounce ⟨s.lastButtonChange, s.lastButtonState⟩
        inp.buttonLevel inp.now).1.lastButtonState := by
  unfold loopStep handleButton updateAlarm
  simp only [ge_iff_le]
  split <;> split <;> simp

/-- Splitting a run of consecutive passes at a cut point. -/
lemma passesFrom_append (r : EnvData) (n m a : ℕ) :
    passesFrom r a (n + m) = passesFrom r a n ++ passesFrom r (a + n) m := by
  induction n generalizing a with
  | zero => simp [passesFrom]
  | succ n ih =>
    have h1 : n + 1 + m = n + m + 1 := by omega
    rw [h1]
    simp only [passesFrom, List.cons_append]
    rw [ih (a + 1)]
    have h2 : a + 1 + n = a + (n + 1) := by omega
    rw [h2]

/-- Running the loop over concatenated input segments runs them in
sequence and concatenates the outputs. -/
lemma runLoop_append (s : SysState) (l1 l2 : List PassInput) :
    runLoop s (l1 ++ l2) =
      ((runLoop (runLoop s l1).1 l2).1,
       (runLoop s l1).2 ++ (runLoop (runLoop s l1).1 l2).2) := by
  induction l1 generalizing s with
  | nil => simp [runLoop]
  | cons x t ih => simp [runLoop, ih]

/-- A stretch of consecutive passes during which neither periodic gate
opens and the button stays LOW leaves the state untouched and emits
nothing. -/
lemma runLoop_quiet (r : EnvData) (n : ℕ) :
    ∀ (a : ℕ) (s : SysState), s.lastButtonState = false →
      (∀ t, a ≤ t → t < a + n →
        elapsed32 t s.lastReadMillis < READ_INTERVAL_MS ∧
        elapsed32 t s.lastDisplayMillis < DISPLAY_INTERVAL_MS) →
      runLoop s (passesFrom r a n) =
        (s, List.replicate n ⟨none, none⟩) := by
  induction n with
  | zero => intro a s _ _; rfl
  | succ n ih =>
    intro a s hbs h
    have ha := h a (Nat.le_refl a) (by omega)
    have hstep := loopStep_quiet s a r ha.1 ha.2 hbs
    simp only [passesFrom, runLoop, hstep,
      ih (a + 1) s hbs (fun t h1 h2 => h t (by omega) (by omega))]
    rfl

/-- Counting over a replicated list. -/
lemma countP_replicate_eq {α : Type} (p : α → Bool) (x : α) (n : ℕ) :
    (List.replicate n x).countP p = if p x then n else 0 := by
  induction n with
  | zero => simp
  | succ n ih =>
    simp only [List.replicate_succ, List.countP_cons, ih]
    by_cases hp : p x <;> simp [hp]

/-- While the sampling gate never opens, the reading set, alarm flag,
buzzer level and sample timestamp persist across any number of passes,
no sample is taken, and every render shows the persisted data. -/
lemma runLoop_noSample_inv (inputs : List PassInput) :
    ∀ s : SysState, s.lastReadMillis = 0 →
      (∀ p ∈ inputs, p.now < READ_INTERVAL_MS) →
      (runLoop s inputs).1.lastReadMillis = 0 ∧
      (runLoop s inputs).1.latestData = s.latestData ∧
      (runLoop s inputs).1.alarmOn = s.alarmOn ∧
      (runLoop s inputs).1.buzzer = s.buzzer ∧
      ∀ o ∈ (runLoop s inputs).2,
        o.sampled = none ∧
        ∀ rc, o.rendered = some rc →
          rc.data = s.latestData ∧ rc.alarmOn = s.alarmOn := by
  induction inputs with
  | nil => intro s h0 _; exact ⟨h0, rfl, rfl, rfl, by simp [runLoop]⟩
  | cons p rest ih =>
    intro s h0 h
    have hp : p.now < READ_INTERVAL_MS := h p (List.mem_cons_self p rest)
    have hgate : elapsed32 p.now s.lastReadMillis < READ_INTERVAL_MS := by
      rw [h0]
      unfold elapsed32 U32 READ_INTERVAL_MS at *
      omega
    obtain ⟨hsamp, hlrm, hld, hao, hbz, hrend⟩ := loopStep_noSample s p hgate
    have hrest : ∀ q ∈ rest, q.now < READ_INTERVAL_MS :=
      fun q hq => h q (List.mem_cons_of_mem p hq)
    obtain ⟨ih1, ih2, ih3, ih4, ih5⟩ :=
      ih (loopStep s p).1 (by rw [hlrm, h0]) hrest
    refine ⟨?_, ?_, ?_, ?_, ?_⟩
    · simpa [runLoop] using ih1
    · simp only [runLoop]
      rw [ih2, hld]
    · simp only [runLoop]
      rw [ih3, hao]
    · simp only [runLoop]
      rw [ih4, hbz]
    · intro o ho
      simp only [runLoop, List.mem_cons] at ho
      rcases ho with ho | ho
      · subst ho
        exact ⟨hsamp, hrend⟩
      · obtain ⟨ho1, ho2⟩ := ih5 o ho
        refine ⟨ho1, fun rc hrc => ?_⟩
        obtain ⟨hr1, hr2⟩ := ho2 rc hrc
        rw [hr1, hr2, hld, hao]
        exact ⟨rfl, rfl⟩

end EnvMonitor

namespace EnvMonitor

/-! ## Claims -/

/-- C1.  The threshold evaluation of `updateAlarm` sets the alarm state to
true iff temperature is present and at least 30.0, or humidity is present
and at least 70.0, or light is at most 1000; an absent (NaN) temperature
or humidity never by itself makes the alarm true. -/
theorem C1_updateAlarm_iff (data : EnvData) :
    (alarmCondition data = true ↔
      (∃ t, data.temperature = some t ∧ TEMP_HIGH_THRESHOLD ≤ t) ∨
      (∃ h, data.humidity = some h ∧ HUMID_HIGH_THRESHOLD ≤ h) ∨
      data.lightRaw ≤ LIGHT_LOW_THRESHOLD) ∧
    (∀ s : SysState, (updateAlarm s data).alarmOn = alarmCondition data ∧
      (updateAlarm s data).buzzer = alarmCondition data) := by
  constructor
  · rcases data with ⟨t, h, l⟩
    cases t <;> cases h <;>
      simp [alarmCondition, ge_iff_le, or_assoc]
  · intro s
    exact ⟨rfl, rfl⟩

/-- C2.  One debouncer step accepts the raw level as stable — updating
both `lastButtonState` and `lastButtonChange` — exactly when the level
differs from `lastButtonState` and the elapsed time since
`lastButtonChange` exceeds the 200-unit window; a differing level inside
the window leaves the whole state unchanged (the timer is not reset). -/
theorem C2_debounce_step (st : DebounceState) (level : Bool) (now : ℕ) :
    ((level ≠ st.lastButtonState ∧
        BUTTON_DEBOUNCE_MS < elapsed32 now st.lastButtonChange) →
      (pollDebounce st level now).1 = ⟨now, level⟩) ∧
    ((level ≠ st.lastButtonState ∧
        ¬ BUTTON_DEBOUNCE_MS < elapsed32 now st.lastButtonChange) →
      (pollDebounce st level now).1 = st) ∧
    ((pollDebounce st level now).1 ≠ st →
      level ≠ st.lastButtonState ∧
      BUTTON_DEBOUNCE_MS < elapsed32 now st.lastButtonChange ∧
      (pollDebounce st level now).1 = ⟨now, level⟩) := by
  refine ⟨fun h => ?_, fun h => ?_, fun h => ?_⟩
  · unfold pollDebounce
    rw [if_pos h]
  · unfold pollDebounce
    rw [if_neg (by exact fun hc => h.2 hc.2)]
  · by_cases hc : level ≠ st.lastButtonState ∧
      BUTTON_DEBOUNCE_MS < elapsed32 now st.lastButtonChange
    · refine ⟨hc.1, hc.2, ?_⟩
      unfold pollDebounce
      rw [if_pos hc]
    · exact absurd (by unfold pollDebounce; rw [if_neg hc]) h

/-- C10.  Every elapsed-time gate computes elapsed time as unsigned 32-bit
modular subtraction, so when the true elapsed time `d` since the stored
timestamp is below 2^32, the wrapped clock value still yields exactly `d`,
and the sampling, render and debounce comparisons are unchanged by clock
wraparound. -/
theorem C10_elapsed32_wraparound (last d : ℕ) (hl : last < U32) (hd : d < U32) :
    elapsed32 ((last + d) % U32) last = d ∧
    (READ_INTERVAL_MS ≤ elapsed32 ((last + d) % U32) last ↔ READ_INTERVAL_MS ≤ d) ∧
    (DISPLAY_INTERVAL_MS ≤ elapsed32 ((last + d) % U32) last ↔ DISPLAY_INTERVAL_MS ≤ d) ∧
    (BUTTON_DEBOUNCE_MS < elapsed32 ((last + d) % U32) last ↔ BUTTON_DEBOUNCE_MS < d) := by
  have he : elapsed32 ((last + d) % U32) last = d := by
    unfold elapsed32 U32 at *
    omega
  rw [he]
  exact ⟨rfl, Iff.rfl, Iff.rfl, Iff.rfl⟩

/-- Witness for C10 at a concrete wraparound: a timestamp 100 ticks before
the 2^32 rollover and a true elapsed time of 300 ticks, giving a wrapped
clock reading of 200. -/
theorem C10_elapsed32_wraparound_witness :
    elapsed32 ((4294967196 + 300) % U32) 4294967196 = 300 ∧
    (READ_INTERVAL_MS ≤ elapsed32 ((4294967196 + 300) % U32) 4294967196 ↔
      READ_INTERVAL_MS ≤ 300) ∧
    (DISPLAY_INTERVAL_MS ≤ elapsed32 ((4294967196 + 300) % U32) 4294967196 ↔
      DISPLAY_INTERVAL_MS ≤ 300) ∧
    (BUTTON_DEBOUNCE_MS < elapsed32 ((4294967196 + 300) % U32) 4294967196 ↔
      BUTTON_DEBOUNCE_MS < 300) :=
  C10_elapsed32_wraparound 4294967196 300 (by unfold U32; omega) (by unfold U32; omega)

/-- C3.  A toggle event fires only on an accepted low→high stable
transition, never on high→low; any raw flips entirely within one debounce
window after the first accepted transition yield at most one toggle; and
the three clean transitions low→high (t=300), high→low (t=600), low→high
(t=900), each beyond the window, yield exactly two toggles. -/
theorem C3_toggle_events :
    (∀ (st : DebounceState) (lv : Bool) (now : ℕ),
      (pollDebounce st lv now).2 = true → lv = true ∧ st.lastButtonState = false) ∧
    (∀ (st : DebounceState) (lv : Bool) (t0 : ℕ) (polls : List (Bool × ℕ)),
      lv ≠ st.lastButtonState →
      BUTTON_DEBOUNCE_MS < elapsed32 t0 st.lastButtonChange →
      (∀ p ∈ polls, elapsed32 p.2 t0 ≤ BUTTON_DEBOUNCE_MS) →
      (runDebounce st ((lv, t0) :: polls)).2 ≤ 1) ∧
    (runDebounce ⟨0, false⟩ [(true, 300), (false, 600), (true, 900)]).2 = 2 := by
  refine ⟨?_, ?_, by rfl⟩
  · intro st lv now hev
    unfold pollDebounce at hev
    by_cases hc : lv ≠ st.lastButtonState ∧
        BUTTON_DEBOUNCE_MS < elapsed32 now st.lastButtonChange
    · rw [if_pos hc] at hev
      have hlv : lv = true := hev
      refine ⟨hlv, ?_⟩
      have hne := hc.1
      rw [hlv] at hne
      cases hst : st.lastButtonState with
      | false => rfl
      | true => exact absurd (by rw [hst]) hne
    · rw [if_neg hc] at hev
      exact absurd hev (by simp)
  · intro st lv t0 polls hne hwin hpolls
    have haccept : pollDebounce st lv t0 = (⟨t0, lv⟩, lv) := by
      unfold pollDebounce
      rw [if_pos ⟨hne, hwin⟩]
    have hrest : runDebounce (⟨t0, lv⟩ : DebounceState) polls = (⟨t0, lv⟩, 0) :=
      runDebounce_within polls ⟨t0, lv⟩ hpolls
    simp only [runDebounce, haccept, hrest]
    cases lv <;> simp

/-- C7.  Summary view: a reading set with absent temperature, humidity
22.5 and light 1500 renders with the explicit "ERR" marker for
temperature, humidity 22.5 with the " %" unit, light "1500 /4095" and
alarm "OFF"; in general present channels are formatted to 1 decimal with
their unit and absent channels as the error marker. -/
theorem C7_showSummary :
    showSummary ⟨none, some 22.5, 1500⟩ false =
      ["ENV MONITOR - SUMMARY\n", "\n", "Temp: ", "ERR\n", "Hum : ", "22.5", " %\n",
       "Light: ", "1500", " /4095\n", "\n", "Alarm: ", "OFF\n"] ∧
    (∀ (t h : ℚ) (l : ℤ) (a : Bool),
      showSummary ⟨some t, some h, l⟩ a =
        ["ENV MONITOR - SUMMARY\n", "\n", "Temp: ", printFloat t 1, " C\n",
         "Hum : ", printFloat h 1, " %\n", "Light: ", toString l, " /4095\n",
         "\n", "Alarm: ", if a then "ON\n" else "OFF\n"]) ∧
    (∀ (l : ℤ) (a : Bool),
      showSummary ⟨none, none, l⟩ a =
        ["ENV MONITOR - SUMMARY\n", "\n", "Temp: ", "ERR\n", "Hum : ", "ERR\n",
         "Light: ", toString l, " /4095\n", "\n", "Alarm: ",
         if a then "ON\n" else "OFF\n"]) :=
  ⟨by with_unfolding_all rfl, fun t h l a => rfl, fun l a => rfl⟩

/-- C8.  Detail view: temperature and humidity are formatted to 2
decimals, an absent value surfaces verbatim as the not-a-number token
"nan" rather than an error string, and the frame ends with the raw light
integer and the static button instruction lines. -/
theorem C8_showDetail :
    showDetail ⟨none, some 22.5, 1500⟩ =
      ["ENV MONITOR - DETAIL\n", "\n", "Raw readings:\n", "T: ", "nan\n",
       "H: ", "22.50\n", "L: ", "1500\n", "\n", "Press button\n",
       "to switch mode.\n"] ∧
    (∀ (t h : ℚ) (l : ℤ),
      showDetail ⟨some t, some h, l⟩ =
        ["ENV MONITOR - DETAIL\n", "\n", "Raw readings:\n",
         "T: ", printFloat t 2 ++ "\n", "H: ", printFloat h 2 ++ "\n",
         "L: ", toString l ++ "\n", "\n", "Press button\n",
         "to switch mode.\n"]) ∧
    (∀ l : ℤ,
      showDetail ⟨none, none, l⟩ =
        ["ENV MONITOR - DETAIL\n", "\n", "Raw readings:\n", "T: ", "nan\n",
         "H: ", "nan\n", "L: ", toString l ++ "\n", "\n", "Press button\n",
         "to switch mode.\n"]) :=
  ⟨by with_unfolding_all rfl, fun t h l => rfl, fun l => rfl⟩

/-- C4.  ViewMode starts as Summary and takes only the values Summary and
Detail; it changes within a pass only when the debouncer accepts a
confirmed low→high edge (which also moves the debounce timestamp to that
pass's clock), so two consecutive passes that both change the mode must be
separated by more than the debounce window. -/
theorem C4_viewmode :
    initState.currentMode = DisplayMode.SUMMARY ∧
    (∀ m : DisplayMode, m = DisplayMode.SUMMARY ∨ m = DisplayMode.DETAIL) ∧
    (∀ (s : SysState) (inp : PassInput),
      (loopStep s inp).1.currentMode ≠ s.currentMode →
      inp.buttonLevel = true ∧ s.lastButtonState = false ∧
      BUTTON_DEBOUNCE_MS < elapsed32 inp.now s.lastButtonChange ∧
      (loopStep s inp).1.lastButtonChange = inp.now ∧
      (loopStep s inp).1.currentMode = toggleMode s.currentMode) ∧
    (∀ (s : SysState) (inp1 inp2 : PassInput),
      (loopStep s inp1).1.currentMode ≠ s.currentMode →
      (loopStep (loopStep s inp1).1 inp2).1.currentMode ≠
        (loopStep s inp1).1.currentMode →
      BUTTON_DEBOUNCE_MS < elapsed32 inp2.now inp1.now) := by
  have hchange : ∀ (s : SysState) (inp : PassInput),
      (loopStep s inp).1.currentMode ≠ s.currentMode →
      inp.buttonLevel = true ∧ s.lastButtonState = false ∧
      BUTTON_DEBOUNCE_MS < elapsed32 inp.now s.lastButtonChange ∧
      (loopStep s inp).1.lastButtonChange = inp.now ∧
      (loopStep s inp).1.currentMode = toggleMode s.currentMode := by
    intro s inp hne
    obtain ⟨hmode, hchg, -⟩ := loopStep_button s inp
    by_cases hev : (pollDebounce ⟨s.lastButtonChange, s.lastButtonState⟩
        inp.buttonLevel inp.now).2 = true
    · obtain ⟨hlv, hst, hwin, hupd⟩ :=
        pollDebounce_event ⟨s.lastButtonChange, s.lastButtonState⟩
          inp.buttonLevel inp.now hev
      refine ⟨hlv, hst, hwin, ?_, ?_⟩
      · rw [hchg, hupd]
      · rw [hmode, if_pos hev]
    · rw [hmode, if_neg hev] at hne
      exact absurd rfl hne
  refine ⟨rfl, fun m => by cases m <;> simp, hchange, ?_⟩
  intro s inp1 inp2 h1 h2
  obtain ⟨-, -, -, hts, -⟩ := hchange s inp1 h1
  obtain ⟨-, -, hwin, -, -⟩ := hchange (loopStep s inp1).1 inp2 h2
  rw [hts] at hwin
  exact hwin

/-- C5.  Within a single pass with both gates due, the sampling step runs
before the render step: the pass's render call carries exactly the reading
sampled in that same pass and the alarm state just recomputed from it. -/
theorem C5_sample_before_render (s : SysState) (inp : PassInput)
    (h1 : READ_INTERVAL_MS ≤ elapsed32 inp.now s.lastReadMillis)
    (h2 : DISPLAY_INTERVAL_MS ≤ elapsed32 inp.now s.lastDisplayMillis) :
    (loopStep s inp).2.sampled = some inp.reading ∧
    (loopStep s inp).2.rendered =
      some ⟨inp.reading, alarmCondition inp.reading, s.currentMode⟩ := by
  unfold loopStep updateAlarm
  simp [h1, h2]

/-- Witness for C5 at the first pass where both gates are due: the initial
state at clock 2000 with a concrete in-range reading. -/
theorem C5_sample_before_render_witness :
    (loopStep initState ⟨2000, ⟨some 25, some 50, 2000⟩, false⟩).2.sampled =
      some ⟨some 25, some 50, 2000⟩ ∧
    (loopStep initState ⟨2000, ⟨some 25, some 50, 2000⟩, false⟩).2.rendered =
      some ⟨⟨some 25, some 50, 2000⟩, alarmCondition ⟨some 25, some 50, 2000⟩,
        DisplayMode.SUMMARY⟩ :=
  C5_sample_before_render initState ⟨2000, ⟨some 25, some 50, 2000⟩, false⟩
    (by unfold initState elapsed32 U32 READ_INTERVAL_MS; norm_num)
    (by unfold initState elapsed32 U32 DISPLAY_INTERVAL_MS; norm_num)

/-- C9.  Until the first sampling interval elapses (all passes at clocks
below 2000), every render shows the zero-initialised reading set
(temperature 0.0, humidity 0.0, light 0 — present values, not the absent
sentinel), no sample is taken, and the alarm flag and buzzer line stay
false/LOW even though light 0 is at most the low-light threshold, because
threshold evaluation runs only after a sample. -/
theorem C9_startup_window (inputs : List PassInput)
    (h : ∀ p ∈ inputs, p.now < READ_INTERVAL_MS) :
    (runLoop initState inputs).1.latestData = EnvData.mk (some 0) (some 0) 0 ∧
    (runLoop initState inputs).1.alarmOn = false ∧
    (runLoop initState inputs).1.buzzer = false ∧
    (∀ o ∈ (runLoop initState inputs).2,
      o.sampled = none ∧
      ∀ rc, o.rendered = some rc →
        rc.data = EnvData.mk (some 0) (some 0) 0 ∧ rc.alarmOn = false) := by
  obtain ⟨-, h2, h3, h4, h5⟩ := runLoop_noSample_inv inputs initState rfl h
  exact ⟨h2, h3, h4, h5⟩

/-- Witness for C9: two passes at clocks 500 and 1999 (the second with the
button held HIGH), both inside the first sampling interval. -/
theorem C9_startup_window_witness :
    (runLoop initState
        [⟨500, ⟨none, none, 0⟩, false⟩, ⟨1999, ⟨none, none, 0⟩, true⟩]).1.latestData =
      EnvData.mk (some 0) (some 0) 0 ∧
    (runLoop initState
        [⟨500, ⟨none, none, 0⟩, false⟩, ⟨1999, ⟨none, none, 0⟩, true⟩]).1.alarmOn = false ∧
    (runLoop initState
        [⟨500, ⟨none, none, 0⟩, false⟩, ⟨1999, ⟨none, none, 0⟩, true⟩]).1.buzzer = false ∧
    (∀ o ∈ (runLoop initState
        [⟨500, ⟨none, none, 0⟩, false⟩, ⟨1999, ⟨none, none, 0⟩, true⟩]).2,
      o.sampled = none ∧
      ∀ rc, o.rendered = some rc →
        rc.data = EnvData.mk (some 0) (some 0) 0 ∧ rc.alarmOn = false) :=
  C9_startup_window
    [⟨500, ⟨none, none, 0⟩, false⟩, ⟨1999, ⟨none, none, 0⟩, true⟩]
    (by
      intro p hp
      unfold READ_INTERVAL_MS
      rcases List.mem_cons.mp hp with h | h
      · subst h; decide
      · rcases List.mem_cons.mp h with h | h
        · subst h; decide
        · exact absurd h (List.not_mem_nil p))

/-- C6.  With sampling interval 2000 and render interval 500, over the
2101 passes at clocks 0..2100 (one pass per time-unit, no button
activity) exactly one sample-and-evaluate cycle and exactly four render
cycles occur, and the pass that samples renders the post-sample reading
set with the alarm state just computed from it. -/
theorem C6_end_to_end :
    ((runLoop initState inputsC6).2.countP fun o => o.sampled.isSome) = 1 ∧
    ((runLoop initState inputsC6).2.countP fun o => o.rendered.isSome) = 4 ∧
    ∀ o ∈ (runLoop initState inputsC6).2, o.sampled.isSome = true →
      o = PassOutput.mk (some rC6)
            (some (RenderCall.mk rC6 (alarmCondition rC6) DisplayMode.SUMMARY)) := by
  have halarm : alarmCondition rC6 = false := by with_unfolding_all rfl
  have hI : inputsC6 =
      passesFrom rC6 0 500 ++ (passesFrom rC6 500 1 ++ (passesFrom rC6 501 499 ++
      (passesFrom rC6 1000 1 ++ (passesFrom rC6 1001 499 ++ (passesFrom rC6 1500 1 ++
      (passesFrom rC6 1501 499 ++ (passesFrom rC6 2000 1 ++
        passesFrom rC6 2001 100))))))) := by
    have h1 := passesFrom_append rC6 500 1601 0
    have h2 := passesFrom_append rC6 1 1600 500
    have h3 := passesFrom_append rC6 499 1101 501
    have h4 := passesFrom_append rC6 1 1100 1000
    have h5 := passesFrom_append rC6 499 601 1001
    have h6 := passesFrom_append rC6 1 600 1500
    have h7 := passesFrom_append rC6 499 101 1501
    have h8 := passesFrom_append rC6 1 100 2000
    norm_num at h1 h2 h3 h4 h5 h6 h7 h8
    unfold inputsC6
    rw [h1, h2, h3, h4, h5, h6, h7, h8]
  have RA : runLoop initState (passesFrom rC6 0 500) =
      (initState, List.replicate 500 ⟨none, none⟩) :=
    runLoop_quiet rC6 500 0 initState rfl (by
      intro t h1 h2
      show elapsed32 t 0 < READ_INTERVAL_MS ∧ elapsed32 t 0 < DISPLAY_INTERVAL_MS
      unfold elapsed32 U32 READ_INTERVAL_MS DISPLAY_INTERVAL_MS
      omega)
  have RB : runLoop initState (passesFrom rC6 500 1) =
      (SysState.mk DisplayMode.SUMMARY false false 0 500 latestDataInit 0 false,
       [PassOutput.mk none
         (some (RenderCall.mk latestDataInit false DisplayMode.SUMMARY))]) := by
    with_unfolding_all rfl
  have RC : runLoop
        (SysState.mk DisplayMode.SUMMARY false false 0 500 latestDataInit 0 false)
        (passesFrom rC6 501 499) =
      (SysState.mk DisplayMode.SUMMARY false false 0 500 latestDataInit 0 false,
       List.replicate 499 ⟨none, none⟩) :=
    runLoop_quiet rC6 499 501
      (SysState.mk DisplayMode.SUMMARY false false 0 500 latestDataInit 0 false)
      rfl (by
        intro t h1 h2
        show elapsed32 t 0 < READ_INTERVAL_MS ∧ elapsed32 t 500 < DISPLAY_INTERVAL_MS
        unfold elapsed32 U32 READ_INTERVAL_MS DISPLAY_INTERVAL_MS
        omega)
  have RD : runLoop
        (SysState.mk DisplayMode.SUMMARY false false 0 500 latestDataInit 0 false)
        (passesFrom rC6 1000 1) =
      (SysState.mk DisplayMode.SUMMARY false false 0 1000 latestDataInit 0 false,
       [PassOutput.mk none
         (some (RenderCall.mk latestDataInit false DisplayMode.SUMMARY))]) := by
    with_unfolding_all rfl
  have RE : runLoop
        (SysState.mk DisplayMode.SUMMARY false false 0 1000 latestDataInit 0 false)
        (passesFrom rC6 1001 499) =
      (SysState.mk DisplayMode.SUMMARY false false 0 1000 latestDataInit 0 false,
       List.replicate 499 ⟨none, none⟩) :=
    runLoop_quiet rC6 499 1001
      (SysState.mk DisplayMode.SUMMARY false false 0 1000 latestDataInit 0 false)
      rfl (by
        intro t h1 h2
        show elapsed32 t 0 < READ_INTERVAL_MS ∧ elapsed32 t 1000 < DISPLAY_INTERVAL_MS
        unfold elapsed32 U32 READ_INTERVAL_MS DISPLAY_INTERVAL_MS
        omega)
  have RF : runLoop
        (SysState.mk DisplayMode.SUMMARY false false 0 1000 latestDataInit 0 false)
        (passesFrom rC6 1500 1) =
      (SysState.mk DisplayMode.SUMMARY false false 0 1500 latestDataInit 0 false,
       [PassOutput.mk none
         (some (RenderCall.mk latestDataInit false DisplayMode.SUMMARY))]) := by
    with_unfolding_all rfl
  have RG : runLoop
        (SysState.mk DisplayMode.SUMMARY false false 0 1500 latestDataInit 0 false)
        (passesFrom rC6 1501 499) =
      (SysState.mk DisplayMode.SUMMARY false false 0 1500 latestDataInit 0 false,
       List.replicate 499 ⟨none, none⟩) :=
    runLoop_quiet rC6 499 1501
      (SysState.mk DisplayMode.SUMMARY false false 0 1500 latestDataInit 0 false)
      rfl (by
        intro t h1 h2
        show elapsed32 t 0 < READ_INTERVAL_MS ∧ elapsed32 t 1500 < DISPLAY_INTERVAL_MS
        unfold elapsed32 U32 READ_INTERVAL_MS DISPLAY_INTERVAL_MS
        omega)
  have RH : runLoop
        (SysState.mk DisplayMode.SUMMARY false false 0 1500 latestDataInit 0 false)
        (passesFrom rC6 2000 1) =
      (SysState.mk DisplayMode.SUMMARY false false 2000 2000 rC6 0 false,
       [PassOutput.mk (some rC6)
         (some (RenderCall.mk rC6 false DisplayMode.SUMMARY))]) := by
    with_unfolding_all rfl
  have RI : runLoop
        (SysState.mk DisplayMode.SUMMARY false false 2000 2000 rC6 0 false)
        (passesFrom rC6 2001 100) =
      (SysState.mk DisplayMode.SUMMARY false false 2000 2000 rC6 0 false,
       List.replicate 100 ⟨none, none⟩) :=
    runLoop_quiet rC6 100 2001
      (SysState.mk DisplayMode.SUMMARY false false 2000 2000 rC6 0 false)
      rfl (by
        intro t h1 h2
        show elapsed32 t 2000 < READ_INTERVAL_MS ∧ elapsed32 t 2000 < DISPLAY_INTERVAL_MS
        unfold elapsed32 U32 READ_INTERVAL_MS DISPLAY_INTERVAL_MS
        omega)
  have hall : (runLoop initState inputsC6).2 =
      List.replicate 500 (PassOutput.mk none none) ++
      ([PassOutput.mk none
          (some (RenderCall.mk latestDataInit false DisplayMode.SUMMARY))] ++
      (List.replicate 499 (PassOutput.mk none none) ++
      ([PassOutput.mk none
          (some (RenderCall.mk latestDataInit false DisplayMode.SUMMARY))] ++
      (List.replicate 499 (PassOutput.mk none none) ++
      ([PassOutput.mk none
          (some (RenderCall.mk latestDataInit false DisplayMode.SUMMARY))] ++
      (List.replicate 499 (PassOutput.mk none none) ++
      ([PassOutput.mk (some rC6)
          (some (RenderCall.mk rC6 false DisplayMode.SUMMARY))] ++
       List.replicate 100 (PassOutput.mk none none)))))))) := by
    rw [hI]
    simp only [runLoop_append, RA, RB, RC, RD, RE, RF, RG, RH, RI]
  refine ⟨?_, ?_, ?_⟩
  · rw [hall]
    simp only [List.countP_append, countP_replicate_eq, List.countP_cons,
      List.countP_nil, Option.isSome_none, Option.isSome_some]
    norm_num
  · rw [hall]
    simp only [List.countP_append, countP_replicate_eq, List.countP_cons,
      List.countP_nil, Option.isSome_none, Option.isSome_some]
    norm_num
  · intro o ho hsome
    rw [hall] at ho
    rw [halarm]
    simp only [List.mem_append, List.mem_replicate, List.mem_singleton] at ho
    rcases ho with ⟨-, ho⟩ | ho | ⟨-, ho⟩ | ho | ⟨-, ho⟩ | ho | ⟨-, ho⟩ | ho | ⟨-, ho⟩ <;>
      subst ho <;> first
        | rfl
        | exact absurd hsome (by simp)

end EnvMonitor
